import Mathlib

/-!
Verification of the Platform Resolution & Retrieval Orchestration subsystem
of the Socialmedia-downloader repository.

The JavaScript source is shallowly embedded: JS strings are Lean `String`
(operated on through their `List Char` data), JS numbers that hold integer
counts are `Nat`, JS `null`/`undefined` are `Option.none`, thrown JS `Error`s
are `Except.error` carrying the message, and the external collaborators
(the WHATWG `URL` parser, play-dl, yt-dlp, the file system and the clock)
are oracles packed into an `Env` structure.  Each definition mirrors one
function of the source; the file and line references are given in the doc
comments.
-/

/-! ### JavaScript string primitives -/

/-- JS `needle`-in-`hay` substring test on character lists:
`hay.includes(needle)` holds iff `needle` occurs contiguously in `hay`. -/
def containsSub (hay needle : List Char) : Bool :=
  needle.isPrefixOf hay ||
    match hay with
    | [] => false
    | _ :: t => containsSub t needle

/-- JS `s.includes(sub)`. -/
def jsIncludes (s sub : String) : Bool :=
  containsSub s.data sub.data

/-- JS `s.toLowerCase()` (the source only lowercases ASCII domain names,
so the ASCII `Char.toLower` is the relevant fragment). -/
def jsToLower (s : String) : String :=
  String.mk (s.data.map Char.toLower)

/-- Decimal digits of `n`, fuel-indexed so that the recursion is structural.
`natDecAux fuel n` is correct whenever `n < fuel`. -/
def natDecAux : Nat → Nat → List Char
  | 0, _ => []
  | f + 1, n =>
    if n < 10 then [Nat.digitChar n]
    else natDecAux f (n / 10) ++ [Nat.digitChar (n % 10)]

/-- Decimal representation of a natural number, modelling the JS
stringification of an integer (template literals, `String(n)`). -/
def natDec (n : Nat) : List Char := natDecAux (n + 1) n

/-- String wrapper of `natDec`. -/
def natDecStr (n : Nat) : String := String.mk (natDec n)

/-- Decodes a decimal digit string back to the number; inverse of `natDec`,
used to prove that distinct timestamps yield distinct filenames. -/
def decodeDec (l : List Char) : Nat :=
  l.foldl (fun acc c => acc * 10 + (c.toNat - 48)) 0

/-- JS `String(n).padStart(2, '0')`. -/
def pad2 (n : Nat) : String :=
  let t := natDecStr n
  if t.data.length < 2 then "0" ++ t else t

/-! ### JS truthiness helpers (`x || y` and `x || null`) -/

/-- JS `v || dflt` for strings: `undefined`/`null`/`""` fall back. -/
def jsOrStr (v : Option String) (dflt : String) : String :=
  match v with
  | none => dflt
  | some s => if s = "" then dflt else s

/-- JS `v || null` for strings. -/
def jsOrNullStr (v : Option String) : Option String :=
  match v with
  | none => none
  | some s => if s = "" then none else some s

/-- JS `v || null` for numbers (`0` is falsy). -/
def jsOrNullNat (v : Option Nat) : Option Nat :=
  match v with
  | none => none
  | some n => if n = 0 then none else some n

/-- JS `v || 0` for numbers. -/
def jsOr0 (v : Option Nat) : Nat :=
  match v with
  | none => 0
  | some n => n

/-! ### Platform classifier -/

/-- `detectPlatform` of the orchestrating service module
(src/unnamed/part_003 lines 216-225): lowercase the URL and test a fixed
list of domain fragments, first match wins, otherwise `unknown`. -/
def detectPlatform (url : String) : String :=
  let urlLower := jsToLower url
  if jsIncludes urlLower "youtube.com" || jsIncludes urlLower "youtu.be" then "youtube"
  else if jsIncludes urlLower "instagram.com" then "instagram"
  else if jsIncludes urlLower "tiktok.com" || jsIncludes urlLower "vm.tiktok.com" then "tiktok"
  else if jsIncludes urlLower "snapchat.com" then "snapchat"
  else "unknown"

/-- `detectPlatform` of the routes-module service
(src/social-downloader-api/src/routes/downloader.routes.js lines 208-220),
which recognises seven platforms. -/
def detectPlatformRoutes (url : String) : String :=
  let urlLower := jsToLower url
  if jsIncludes urlLower "youtube.com" || jsIncludes urlLower "youtu.be" then "youtube"
  else if jsIncludes urlLower "instagram.com" then "instagram"
  else if jsIncludes urlLower "tiktok.com" then "tiktok"
  else if jsIncludes urlLower "facebook.com" then "facebook"
  else if jsIncludes urlLower "x.com" || jsIncludes urlLower "twitter.com" then "twitter"
  else if jsIncludes urlLower "reddit.com" then "reddit"
  else if jsIncludes urlLower "twitch.tv" then "twitch"
  else "unknown"

/-- First-match lookup in a fragment table: the reference "fixed
fragment-table lookup" the classifier is claimed to equal. -/
def fragLookup (table : List (String × String)) (url : String) : String :=
  match table with
  | [] => "unknown"
  | (frag, tag) :: rest =>
    if jsIncludes (jsToLower url) frag then tag else fragLookup rest url

/-- Fragment table of the orchestrating service module, in source order. -/
def fragTableMain : List (String × String) :=
  [("youtube.com", "youtube"), ("youtu.be", "youtube"),
   ("instagram.com", "instagram"),
   ("tiktok.com", "tiktok"), ("vm.tiktok.com", "tiktok"),
   ("snapchat.com", "snapchat")]

/-- Fragment table of the routes-module service, in source order. -/
def fragTableRoutes : List (String × String) :=
  [("youtube.com", "youtube"), ("youtu.be", "youtube"),
   ("instagram.com", "instagram"),
   ("tiktok.com", "tiktok"),
   ("facebook.com", "facebook"),
   ("x.com", "twitter"), ("twitter.com", "twitter"),
   ("reddit.com", "reddit"),
   ("twitch.tv", "twitch")]

/-! ### Duration formatting -/

/-- `formatDuration` (identical in all module versions, e.g.
src/unnamed/part_003 lines 249-260): falsy seconds (absent or `0`) yield
`null`; otherwise `H:MM:SS` when there is a nonzero hour part, else `M:SS`,
minutes and seconds padded with `padStart(2, '0')`. -/
def formatDuration (seconds : Option Nat) : Option String :=
  match seconds with
  | none => none
  | some s =>
    if s = 0 then none
    else
      let hours := s / 3600
      let minutes := s % 3600 / 60
      let secs := s % 60
      if hours > 0 then
        some (natDecStr hours ++ ":" ++ pad2 minutes ++ ":" ++ pad2 secs)
      else
        some (natDecStr minutes ++ ":" ++ pad2 secs)

/-- The duration-formatting rule as the specification words it
(§4.3 of the spec): `hours = floor(s/3600)`, `minutes = floor((s%3600)/60)`,
`secs = floor(s%60)`, `H:MM:SS` when `hours > 0`, else `M:SS`. -/
def formatDurationSpec (s : Nat) : String :=
  let hours := s / 3600
  let minutes := (s % 3600) / 60
  let secs := s % 60
  if hours > 0 then
    natDecStr hours ++ ":" ++ pad2 minutes ++ ":" ++ pad2 secs
  else
    natDecStr minutes ++ ":" ++ pad2 secs

/-! ### Filename sanitization -/

/-- The character class `[a-zA-Z0-9_\-]` of the sanitizing regexes,
by ASCII code point. -/
def isAllowedChar (c : Char) : Bool :=
  decide ((65 ≤ c.toNat ∧ c.toNat ≤ 90) ∨ (97 ≤ c.toNat ∧ c.toNat ≤ 122) ∨
    (48 ≤ c.toNat ∧ c.toNat ≤ 57) ∨ c.toNat = 95 ∨ c.toNat = 45)

/-- The JS regex class `\s` (ECMAScript WhiteSpace and LineTerminator),
by code point. -/
def isJsWs (c : Char) : Bool :=
  decide (c.toNat = 32 ∨ c.toNat = 9 ∨ c.toNat = 10 ∨ c.toNat = 11 ∨
    c.toNat = 12 ∨ c.toNat = 13 ∨ c.toNat = 160 ∨ c.toNat = 5760 ∨
    (8192 ≤ c.toNat ∧ c.toNat ≤ 8202) ∨ c.toNat = 8232 ∨ c.toNat = 8233 ∨
    c.toNat = 8239 ∨ c.toNat = 8287 ∨ c.toNat = 12288 ∨ c.toNat = 65279)

/-- One global replace of `p`-runs by a single `'_'`
(JS `replace(/X+/g, '_')`); `inRun` remembers whether the previous
character belonged to the run being replaced. -/
def squeezeRuns (p : Char → Bool) : Bool → List Char → List Char
  | _, [] => []
  | inRun, c :: cs =>
    if p c then
      (if inRun then squeezeRuns p true cs else '_' :: squeezeRuns p true cs)
    else c :: squeezeRuns p false cs

/-- Removes a trailing run of underscores (the `_+$` half of
`replace(/^_+|_+$/g, '')`). -/
def dropTrailUnd : List Char → List Char
  | [] => []
  | c :: cs =>
    match dropTrailUnd cs with
    | [] => if c == '_' then [] else [c]
    | r => c :: r

/-- Removes leading and trailing underscore runs
(JS `replace(/^_+|_+$/g, '')`). -/
def trimUnd (l : List Char) : List Char :=
  dropTrailUnd (l.dropWhile (fun c => c == '_'))

/-- `sanitizeFilename` (src/unnamed/part_003 lines 240-247) on character
lists: replace every character outside `[a-zA-Z0-9_\-\s]` by `'_'`, replace
whitespace runs by `'_'`, collapse underscore runs, trim leading/trailing
underscores, then `substring(0, 100)`. -/
def sanitizeChars (l : List Char) : List Char :=
  let s1 := l.map (fun c => if isAllowedChar c || isJsWs c then c else '_')
  let s2 := squeezeRuns isJsWs false s1
  let s3 := squeezeRuns (fun c => c == '_') false s2
  let s4 := trimUnd s3
  s4.take 100

/-- `sanitizeFilename` at the string level. -/
def sanitizeFilename (s : String) : String :=
  String.mk (sanitizeChars s.data)

/-- The inline title sanitizer of the first and third module versions
(src/unnamed/part_003 lines 117-120 and 759-762, and the routes module
lines 290-293): `[^a-zA-Z0-9_\-]` to `'_'`, collapse underscore runs,
`slice(0, 80)`.  It does not trim boundary underscores. -/
def safeTitleChars (l : List Char) : List Char :=
  (squeezeRuns (fun c => c == '_') false
    (l.map (fun c => if isAllowedChar c then c else '_'))).take 80

/-! ### The YouTube video-id regex -/

/-- A token of the patterns occurring in the video-id regex:
a literal character, the unescaped `.` (any char except a line
terminator), or `\w`. -/
inductive RTok where
  | lit (c : Char)
  | anyChar
  | wordChar
deriving Repr, DecidableEq

/-- JS line terminators, which the unescaped `.` does not match. -/
def isLineTerm (c : Char) : Bool :=
  decide (c.toNat = 10 ∨ c.toNat = 13 ∨ c.toNat = 8232 ∨ c.toNat = 8233)

/-- JS `\w`, the class `[A-Za-z0-9_]`. -/
def isWordChar (c : Char) : Bool :=
  decide ((65 ≤ c.toNat ∧ c.toNat ≤ 90) ∨ (97 ≤ c.toNat ∧ c.toNat ≤ 122) ∨
    (48 ≤ c.toNat ∧ c.toNat ≤ 57) ∨ c.toNat = 95)

/-- Single-token match. -/
def matchRTok : RTok → Char → Bool
  | .lit a, c => a == c
  | .anyChar, c => !isLineTerm c
  | .wordChar, c => isWordChar c

/-- Matches a token sequence against a prefix of `cs`, returning the
remainder on success. -/
def matchPattern : List RTok → List Char → Option (List Char)
  | [], rest => some rest
  | _, [] => none
  | t :: ts, c :: cs => if matchRTok t c then matchPattern ts cs else none

/-- Tries a list of alternatives in order at a fixed position
(regex alternation semantics). -/
def tryAlternatives (ps : List (List RTok)) (cs : List Char) : Option (List Char) :=
  match ps with
  | [] => none
  | p :: rest =>
    match matchPattern p cs with
    | some r => some r
    | none => tryAlternatives rest cs

/-- The alternation of the regex
`^.*(youtu.be\/|v\/|u\/\w\/|embed\/|watch\?v=|&v=)...` from
`extractYoutubeVideoId` (src/unnamed/part_003 lines 366-370); the dot in
`youtu.be` is unescaped in the source and therefore matches any character. -/
def ytIdAlternatives : List (List RTok) :=
  [[.lit 'y', .lit 'o', .lit 'u', .lit 't', .lit 'u', .anyChar, .lit 'b', .lit 'e', .lit '/'],
   [.lit 'v', .lit '/'],
   [.lit 'u', .lit '/', .wordChar, .lit '/'],
   [.lit 'e', .lit 'm', .lit 'b', .lit 'e', .lit 'd', .lit '/'],
   [.lit 'w', .lit 'a', .lit 't', .lit 'c', .lit 'h', .lit '?', .lit 'v', .lit '='],
   [.lit '&', .lit 'v', .lit '=']]

/-- The greedy `^.*(...)` search: the leading `.*` cannot cross a line
terminator and backtracks from the longest prefix, so the alternation is
matched at the rightmost reachable position where it succeeds. -/
def scanGreedy (cs : List Char) : Option (List Char) :=
  match cs with
  | [] => none
  | c :: rest =>
    if isLineTerm c then tryAlternatives ytIdAlternatives (c :: rest)
    else
      match scanGreedy rest with
      | some r => some r
      | none => tryAlternatives ytIdAlternatives (c :: rest)

/-- `extractYoutubeVideoId` (src/unnamed/part_003 lines 366-370): match the
regex, take capture group 2 (`[^#&?]*`, the greedy run after the marker),
and accept it only when it has exactly 11 characters. -/
def extractYoutubeVideoId (url : String) : Option String :=
  match scanGreedy url.data with
  | none => none
  | some rest =>
    let vid := rest.takeWhile (fun c => !(c == '#' || c == '&' || c == '?'))
    if vid.length = 11 then some (String.mk vid) else none

/-- The alternation of the Instagram shortcode regex
`/\/(?:p|reel)\/([A-Za-z0-9_-]+)/` (src/unnamed/part_003 line 481). -/
def instaAlternatives : List (List RTok) :=
  [[.lit '/', .lit 'p', .lit '/'],
   [.lit '/', .lit 'r', .lit 'e', .lit 'e', .lit 'l', .lit '/']]

/-- Match of the shortcode regex at one position: the marker followed by at
least one `[A-Za-z0-9_-]` character; the capture is the greedy run. -/
def instaAt (cs : List Char) : Option (List Char) :=
  match tryAlternatives instaAlternatives cs with
  | none => none
  | some rest =>
    let run := rest.takeWhile isAllowedChar
    if run.isEmpty then none else some run

/-- Leftmost match of the shortcode regex
(`url.match(...)` without `^` anchor scans left to right). -/
def instaFirstMatch : List Char → Option (List Char)
  | [] => none
  | c :: rest =>
    match instaAt (c :: rest) with
    | some r => some r
    | none => instaFirstMatch rest

/-- `url.match(/\/(?:p|reel)\/([A-Za-z0-9_-]+)/)?.[1]` from
`getInstagramInfo` (src/unnamed/part_003 line 481). -/
def instaShortcode (url : String) : Option String :=
  (instaFirstMatch url.data).map String.mk

/-! ### Data model -/

/-- One entry of the `formats` array as emitted by the external yt-dlp
JSON dump (only the keys the normalizer reads). -/
structure RawFormat where
  format_note : Option String := none
  height : Option Nat := none
  ext : Option String := none
  filesize : Option Nat := none
  fps : Option Nat := none
  vcodec : Option String := none
  acodec : Option String := none
deriving Repr, DecidableEq

/-- The raw metadata object parsed from `yt-dlp --dump-json` output
(only the keys the normalizers read). -/
structure YtDlpRaw where
  extractor_key : Option String := none
  title : Option String := none
  description : Option String := none
  thumbnail : Option String := none
  uploader : Option String := none
  channel : Option String := none
  upload_date : Option String := none
  duration : Option Nat := none
  view_count : Option Nat := none
  like_count : Option Nat := none
  comment_count : Option Nat := none
  webpage_url : Option String := none
  formats : List RawFormat := []
deriving Repr, DecidableEq

/-- The `video_details` object returned by the external play-dl library
(only the keys `getYoutubeInfo` reads; optional chaining results are
already collapsed into `Option`s). -/
structure PlayDlRecord where
  title : String := ""
  durationInSec : Option Nat := none
  durationRaw : Option String := none
  thumbnail0 : Option String := none
  channelName : Option String := none
  uploadedAt : Option String := none
  description : Option String := none
  views : Option Nat := none
deriving Repr, DecidableEq

/-- A normalized format descriptor of a `MediaInfo`. -/
structure FormatDesc where
  quality : String
  ext : String
  filesize : Option Nat
  fps : Option Nat
  vcodec : Option String
  acodec : Option String
deriving Repr, DecidableEq

/-- The metadata record the info paths return.  Keys a given path does not
set stay at their defaults (`none` models an absent JS key; the fallback
records that omit `isPlayable` are modelled with the default `true`,
which no claim observes). -/
structure MediaInfo where
  platform : String
  title : String
  duration : Option Nat := none
  durationFormatted : Option String := none
  thumbnail : Option String := none
  uploader : String := "Unknown"
  uploadDate : Option String := none
  description : Option String := none
  views : Option Nat := none
  likes : Option Nat := none
  comments : Option Nat := none
  webpage_url : String
  formats : List FormatDesc := []
  isPlayable : Bool := true
  videoId : Option String := none
  shortcode : Option String := none
  type : Option String := none
  note : Option String := none
deriving Repr, DecidableEq

/-- The record a download path resolves with. -/
structure DlResult where
  filename : String
  downloadUrl : String
  filesize : Nat
  platform : String
  title : Option String := none
  uploader : Option String := none
  thumbnail : Option String := none
deriving Repr, DecidableEq

/-- Which event settles the streaming promise of a download: the write
stream finishing, the source stream erroring, or the write stream
erroring. -/
inductive SessionEvent where
  | finish
  | streamError (msg : String)
  | writeError (msg : String)
deriving Repr, DecidableEq

/-- An external extraction mechanism being invoked; the orchestration
theorems use the list of these as the trace of backend attempts. -/
inductive Mech where
  | playdlInfo
  | ytdlpInfo
  | playdlStream
  | ytdlpDl
deriving Repr, DecidableEq

/-- The external collaborators of the service module: the runtime URL
parser, the cached yt-dlp availability probe, the play-dl and yt-dlp
calls, the streaming session, the download directory and the clock.
Every field is an oracle; the defaults are irrelevant to the theorems,
which fix the fields they depend on. -/
structure Env where
  urlParses : String → Bool := fun _ => true
  ytDlpAvailable : Bool := false
  playInfo : String → Except String PlayDlRecord := fun _ => .error "play-dl failed"
  ytDlpInfo : String → Except String YtDlpRaw := fun _ => .error "yt-dlp failed"
  playStream : String → Except String Unit := fun _ => .ok ()
  session : SessionEvent := .finish
  ytDlpExecDl : String → String → Except String Unit := fun _ _ => .ok ()
  dirListing : List String := []
  mtime : String → Nat := fun _ => 0
  fileSize : String → Nat := fun _ => 0
  now : Nat := 0

/-- `isValidUrl` (src/unnamed/part_003 lines 227-234): `new URL(url)`
succeeds or throws; the WHATWG parser itself is the runtime's, hence an
oracle. -/
def isValidUrl (env : Env) (url : String) : Bool :=
  env.urlParses url

/-! ### Metadata normalizers and info adapters -/

/-- The field mapping `getInfoWithYtDlp` applies to a parsed yt-dlp record
(src/unnamed/part_003 lines 283-298). -/
def normalizeYtDlpRaw (url : String) (info : YtDlpRaw) : MediaInfo :=
  { platform := jsOrStr (info.extractor_key.map jsToLower) (detectPlatform url)
    title := jsOrStr info.title "Unknown"
    description := jsOrNullStr info.description
    thumbnail := jsOrNullStr info.thumbnail
    uploader := jsOrStr info.uploader (jsOrStr info.channel "Unknown")
    uploadDate := jsOrNullStr info.upload_date
    duration := jsOrNullNat info.duration
    durationFormatted := formatDuration info.duration
    views := jsOrNullNat info.view_count
    likes := jsOrNullNat info.like_count
    comments := jsOrNullNat info.comment_count
    webpage_url := url
    isPlayable := true }

/-- `getInfoWithYtDlp` (src/unnamed/part_003 lines 274-303): run
`yt-dlp --dump-json`, parse, normalize; errors propagate. -/
def getInfoWithYtDlp (env : Env) (url : String) :
    Except String MediaInfo × List Mech :=
  match env.ytDlpInfo url with
  | .error e => (.error e, [.ytdlpInfo])
  | .ok info => (.ok (normalizeYtDlpRaw url info), [.ytdlpInfo])

/-- The field mapping of the play-dl success branch of `getYoutubeInfo`
(src/unnamed/part_003 lines 383-397); `duration` and `durationFormatted`
are verbatim copies of `videoDetails.durationInSec` and
`videoDetails.durationRaw`. -/
def normalizePlayDl (url vid : String) (vd : PlayDlRecord) : MediaInfo :=
  { platform := "youtube"
    title := vd.title
    duration := vd.durationInSec
    durationFormatted := vd.durationRaw
    thumbnail := jsOrNullStr vd.thumbnail0
    uploader := jsOrStr vd.channelName "Unknown"
    uploadDate := jsOrNullStr vd.uploadedAt
    description := jsOrNullStr vd.description
    views := some (jsOr0 vd.views)
    isPlayable := true
    videoId := some vid
    webpage_url := url }

/-- `getYoutubeInfo` (src/unnamed/part_003 lines 372-409): try the video-id
extraction and play-dl; on any failure fall back to yt-dlp when the
availability probe succeeded, otherwise rethrow; errors leaving the
function are prefixed with `YouTube: `. -/
def getYoutubeInfo (env : Env) (url : String) :
    Except String MediaInfo × List Mech :=
  let inner : Except String MediaInfo × List Mech :=
    match extractYoutubeVideoId url with
    | none => (.error "Invalid YouTube URL", [])
    | some vid =>
      match env.playInfo url with
      | .error e => (.error e, [.playdlInfo])
      | .ok vd => (.ok (normalizePlayDl url vid vd), [.playdlInfo])
  match inner with
  | (.ok r, tr) => (.ok r, tr)
  | (.error e, tr) =>
    if env.ytDlpAvailable then
      match getInfoWithYtDlp env url with
      | (.ok r, tr2) => (.ok r, tr ++ tr2)
      | (.error e2, tr2) => (.error ("YouTube: " ++ e2), tr ++ tr2)
    else (.error ("YouTube: " ++ e), tr)

/-- `getInstagramInfo` (src/unnamed/part_003 lines 472-498): yt-dlp when
available (errors wrapped with `Instagram: `), otherwise a static
fallback record with the shortcode parsed from the URL. -/
def getInstagramInfo (env : Env) (url : String) :
    Except String MediaInfo × List Mech :=
  if env.ytDlpAvailable then
    match getInfoWithYtDlp env url with
    | (.ok r, tr) => (.ok r, tr)
    | (.error e, tr) => (.error ("Instagram: " ++ e), tr)
  else
    (.ok { platform := "instagram"
           title := "Instagram Content"
           description := some "Instagram post or reel"
           thumbnail := none
           uploader := "Instagram User"
           webpage_url := url
           type := some (if jsIncludes url "/reel/" then "reel" else "post")
           shortcode := instaShortcode url
           note := some "Install yt-dlp for full functionality: pip install yt-dlp" }, [])

/-- `getTiktokInfo` (src/unnamed/part_003 lines 519-542): yt-dlp when
available (errors wrapped with `TikTok: `), otherwise a static fallback
record. -/
def getTiktokInfo (env : Env) (url : String) :
    Except String MediaInfo × List Mech :=
  if env.ytDlpAvailable then
    match getInfoWithYtDlp env url with
    | (.ok r, tr) => (.ok r, tr)
    | (.error e, tr) => (.error ("TikTok: " ++ e), tr)
  else
    (.ok { platform := "tiktok"
           title := "TikTok Video"
           description := some "TikTok video content"
           thumbnail := none
           uploader := "TikTok User"
           webpage_url := url
           note := some "Install yt-dlp for full functionality: pip install yt-dlp" }, [])

/-- The static Snapchat fallback record (src/unnamed/part_003
lines 572-581). -/
def snapchatFallback (url : String) : MediaInfo :=
  { platform := "snapchat"
    title := "Snapchat Content"
    description := some "Snapchat Spotlight or Story"
    thumbnail := none
    uploader := "Snapchat User"
    webpage_url := url
    note := some "Snapchat content may have restrictions" }

/-- `getSnapchatInfo` (src/unnamed/part_003 lines 563-582): yt-dlp when
available, its failure only logged and answered with the fallback
record; without yt-dlp the fallback record directly. -/
def getSnapchatInfo (env : Env) (url : String) :
    Except String MediaInfo × List Mech :=
  if env.ytDlpAvailable then
    match getInfoWithYtDlp env url with
    | (.ok r, tr) => (.ok r, tr)
    | (.error _, tr) => (.ok (snapchatFallback url), tr)
  else (.ok (snapchatFallback url), [])

/-- `getInfo`, the public metadata resolver (src/unnamed/part_003
lines 600-620): validate the URL, classify, dispatch; unmatched platforms
fail before any adapter runs. -/
def getInfo (env : Env) (url : String) : Except String MediaInfo × List Mech :=
  if isValidUrl env url then
    let platform := detectPlatform url
    if platform = "youtube" then getYoutubeInfo env url
    else if platform = "instagram" then getInstagramInfo env url
    else if platform = "tiktok" then getTiktokInfo env url
    else if platform = "snapchat" then getSnapchatInfo env url
    else (.error ("Platform \x27" ++ platform ++ "\x27 is not currently supported"), [])
  else (.error "Invalid URL provided", [])

/-! ### Download adapters -/

/-- Insertion step of the JS comparator sort
`(a, b) => statB.mtimeMs - statA.mtimeMs` (descending mtime). -/
def insertByMtimeDesc (env : Env) (f : String) : List String → List String
  | [] => [f]
  | g :: t =>
    if env.mtime g < env.mtime f then f :: g :: t
    else g :: insertByMtimeDesc env f t

/-- Sorts filenames by decreasing modification time, as
`downloadWithYtDlp` does before picking `files[0]`. -/
def sortByMtimeDesc (env : Env) : List String → List String
  | [] => []
  | f :: t => insertByMtimeDesc env f (sortByMtimeDesc env t)

/-- `downloadWithYtDlp` (src/unnamed/part_003 lines 305-360): run the
yt-dlp download command with a `platform_..._timestamp` output template,
then look the produced file up in the download directory (newest first);
the third component is a partial file left behind by a failed run
(`none`: the yt-dlp process is external and no in-process write stream is
cleaned up here). -/
def downloadWithYtDlp (env : Env) (url platform : String) :
    Except String DlResult × List Mech × Option String :=
  let timestamp := env.now
  match env.ytDlpExecDl url platform with
  | .error e => (.error e, [.ytdlpDl], none)
  | .ok _ =>
    let files := env.dirListing.filter
      (fun f => f.data.take platform.data.length == platform.data &&
        containsSub f.data (natDec timestamp))
    match sortByMtimeDesc env files with
    | [] => (.error "Download completed but file not found", [.ytdlpDl], none)
    | filename :: _ =>
      (.ok { filename := filename
             downloadUrl := "/downloads/" ++ filename
             filesize := env.fileSize filename
             platform := platform }, [.ytdlpDl], none)

/-- `downloadYoutube` (src/unnamed/part_003 lines 411-466).  Metadata or
stream-acquisition failures fall back to yt-dlp; once the play-dl stream
is piping, the promise settles with the session event.  The stream-error
handler unlinks the partial file before rejecting; the write-error
handler is a bare `reject` and leaves the partial file (third
component).  The `quality` parameter of the source is unused by its
body. -/
def downloadYoutube (env : Env) (url : String) :
    Except String DlResult × List Mech × Option String :=
  match getYoutubeInfo env url with
  | (.error e, tr) =>
    if env.ytDlpAvailable then
      let r := downloadWithYtDlp env url "youtube"
      (r.1, tr ++ r.2.1, r.2.2)
    else (.error e, tr, none)
  | (.ok md, tr) =>
    let safeTitle := sanitizeFilename md.title
    let filename := safeTitle ++ "_" ++ natDecStr env.now ++ ".mp4"
    match env.playStream url with
    | .error e =>
      if env.ytDlpAvailable then
        let r := downloadWithYtDlp env url "youtube"
        (r.1, tr ++ [.playdlStream] ++ r.2.1, r.2.2)
      else (.error e, tr ++ [.playdlStream], none)
    | .ok _ =>
      match env.session with
      | .finish =>
        (.ok { filename := filename
               downloadUrl := "/downloads/" ++ filename
               filesize := env.fileSize filename
               platform := "youtube"
               title := some md.title
               uploader := some md.uploader
               thumbnail := md.thumbnail }, tr ++ [.playdlStream], none)
      | .streamError e => (.error e, tr ++ [.playdlStream], none)
      | .writeError e => (.error e, tr ++ [.playdlStream], some filename)

/-- `downloadInstagram` (src/unnamed/part_003 lines 500-513): yt-dlp
required; every error is wrapped with `Instagram download failed: `. -/
def downloadInstagram (env : Env) (url : String) :
    Except String DlResult × List Mech × Option String :=
  if env.ytDlpAvailable then
    let r := downloadWithYtDlp env url "instagram"
    match r.1 with
    | .ok d => (.ok d, r.2.1, r.2.2)
    | .error e => (.error ("Instagram download failed: " ++ e), r.2.1, r.2.2)
  else
    (.error "Instagram download failed: yt-dlp is required for Instagram downloads. Install with: pip install yt-dlp", [], none)

/-- `downloadTiktok` (src/unnamed/part_003 lines 544-557); the
`watermark` parameter of the source is unused by its body. -/
def downloadTiktok (env : Env) (url : String) :
    Except String DlResult × List Mech × Option String :=
  if env.ytDlpAvailable then
    let r := downloadWithYtDlp env url "tiktok"
    match r.1 with
    | .ok d => (.ok d, r.2.1, r.2.2)
    | .error e => (.error ("TikTok download failed: " ++ e), r.2.1, r.2.2)
  else
    (.error "TikTok download failed: yt-dlp is required for TikTok downloads. Install with: pip install yt-dlp", [], none)

/-- `downloadSnapchat` (src/unnamed/part_003 lines 584-594): a yt-dlp
failure falls through to the same terminal error as yt-dlp being
absent. -/
def downloadSnapchat (env : Env) (url : String) :
    Except String DlResult × List Mech × Option String :=
  if env.ytDlpAvailable then
    let r := downloadWithYtDlp env url "snapchat"
    match r.1 with
    | .ok d => (.ok d, r.2.1, r.2.2)
    | .error _ =>
      (.error "Snapchat downloads require yt-dlp. Install with: pip install yt-dlp", r.2.1, r.2.2)
  else
    (.error "Snapchat downloads require yt-dlp. Install with: pip install yt-dlp", [], none)

/-- `downloadMedia`, the public retrieval entry point (src/unnamed/part_003
lines 622-642): validate the URL, classify, dispatch; unmatched platforms
fail before any adapter runs. -/
def downloadMedia (env : Env) (url : String) :
    Except String DlResult × List Mech × Option String :=
  if isValidUrl env url then
    let platform := detectPlatform url
    if platform = "youtube" then downloadYoutube env url
    else if platform = "instagram" then downloadInstagram env url
    else if platform = "tiktok" then downloadTiktok env url
    else if platform = "snapchat" then downloadSnapchat env url
    else
      (.error ("Platform \x27" ++ platform ++ "\x27 is not currently supported for downloads"),
       [], none)
  else (.error "Invalid URL provided", [], none)

/-! ### The streaming promise of the first module version -/

/-- The promise executor of the first module version's `downloadMedia`
(src/unnamed/part_003 lines 126-140): both the source-stream error handler
and the write-stream error handler call `fs.unlink` on the partial file
before rejecting with a fixed message; the boolean records whether the
file still exists after the promise settles. -/
def downloadMediaV1Promise : SessionEvent → Except String Unit × Bool
  | .finish => (.ok (), true)
  | .streamError _ => (.error "Failed to download video stream", false)
  | .writeError _ => (.error "Failed to write video file", false)

/-- The filename construction of the first module version's
`downloadMedia` (src/unnamed/part_003 lines 115-121):
`` `${safeTitle}_${Date.now()}.mp4` `` with the inline sanitizer and the
falsy-title default `'video'`. -/
def mkFilenameV1 (title : String) (now : Nat) : String :=
  let t := if title = "" then "video" else title
  String.mk (safeTitleChars t.data) ++ "_" ++ natDecStr now ++ ".mp4"

/-- The download directory's contents after two sequential writes of the
two filenames produced for the same title by two requests observing
`Date.now()` values `ts1` and `ts2`: `fs.createWriteStream` truncates an
existing file of the same name, so equal filenames leave one file. -/
def dirAfterTwoDownloads (title : String) (ts1 ts2 : Nat) : List String :=
  let f1 := mkFilenameV1 title ts1
  let f2 := mkFilenameV1 title ts2
  if f2 = f1 then [f2] else [f1, f2]

/-! ### The routes-module service version -/

/-- The format mapping and `mhtml` filter of the routes-module `getInfo`
(src/social-downloader-api/src/routes/downloader.routes.js
lines 254-261). -/
def routesFormats (fs : List RawFormat) : List FormatDesc :=
  (fs.map (fun f =>
    { quality := jsOrStr f.format_note
        (match f.height with
         | some h => if h = 0 then "unknown" else natDecStr h ++ "p"
         | none => "unknown")
      ext := jsOrStr f.ext "unknown"
      filesize := jsOrNullNat f.filesize
      fps := jsOrNullNat f.fps
      vcodec := jsOrNullStr f.vcodec
      acodec := jsOrNullStr f.acodec })).filter (fun f => f.ext != "mhtml")

/-- The routes-module `getInfo`
(src/social-downloader-api/src/routes/downloader.routes.js
lines 225-275): spawn `yt-dlp --dump-json`, normalize, with the
`Failed to start yt-dlp` message rewritten to an install hint. -/
def routesGetInfo (env : Env) (url : String) : Except String MediaInfo :=
  match env.ytDlpInfo url with
  | .error e =>
    .error (if jsIncludes e "Failed to start yt-dlp"
            then "yt-dlp is not installed. Install it with: pip install yt-dlp"
            else e)
  | .ok info =>
    .ok { platform := detectPlatformRoutes url
          title := jsOrStr info.title "Untitled"
          duration := jsOrNullNat info.duration
          durationFormatted := formatDuration info.duration
          thumbnail := jsOrNullStr info.thumbnail
          uploader := jsOrStr info.uploader (jsOrStr info.channel "Unknown")
          uploadDate := jsOrNullStr info.upload_date
          description := jsOrNullStr info.description
          webpage_url := jsOrStr info.webpage_url url
          formats := routesFormats info.formats
          isPlayable := true }

/-! ### Concrete instances used by witnesses and counterexamples -/

/-- A YouTube URL whose video id extracts successfully. -/
def ytUrlEx : String := "https://www.youtube.com/watch?v=dQw4w9WgXcQ"

/-- A fallback `MediaInfo` used only to extract `Except.ok` payloads of
concrete runs. -/
def miDefault : MediaInfo := { platform := "", title := "", webpage_url := "" }

/-- Environment with every oracle at its default. -/
def envDefault : Env := {}

/-- Environment whose URL parser rejects everything. -/
def envNoParse : Env := { urlParses := fun _ => false }

/-- yt-dlp metadata used by the fallback-correctness witness. -/
def rawC1 : YtDlpRaw :=
  { extractor_key := some "Youtube", title := some "Second Backend Title",
    duration := some 212, uploader := some "Chan" }

/-- Environment for the fallback-correctness witness: play-dl fails,
yt-dlp is available and succeeds. -/
def envC1 : Env :=
  { ytDlpAvailable := true
    playInfo := fun _ => .error "play-dl failed"
    ytDlpInfo := fun _ => .ok rawC1 }

/-- play-dl record for the write-error scenario. -/
def playRec7 : PlayDlRecord := { title := "Test" }

/-- Environment whose write stream errors after play-dl starts piping. -/
def env7w : Env :=
  { playInfo := fun _ => .ok playRec7, session := .writeError "disk full", now := 1000 }

/-- Environment whose write stream finishes. -/
def env7f : Env :=
  { playInfo := fun _ => .ok playRec7, session := .finish, now := 1000 }

/-- A play-dl record whose `durationRaw` is absent while `durationInSec`
is present: the raw library output the play-dl path copies verbatim. -/
def playRec8 : PlayDlRecord :=
  { title := "Clip", durationInSec := some 5, durationRaw := none }

/-- Environment delivering `playRec8`. -/
def envC8 : Env := { playInfo := fun _ => .ok playRec8 }

/-- The `MediaInfo` the resolver returns under `envC8`. -/
def minfo8 : MediaInfo := (getInfo envC8 ytUrlEx).1.toOption.getD miDefault

/-- A play-dl record with consistent duration fields, for the amended
invariant's witness. -/
def playRec8w : PlayDlRecord :=
  { title := "Song", durationInSec := some 212, durationRaw := some "3:32" }

/-- Environment delivering `playRec8w`. -/
def envC8w : Env := { playInfo := fun _ => .ok playRec8w }

/-- The `MediaInfo` the resolver returns under `envC8w`. -/
def minfo8w : MediaInfo := (getInfo envC8w ytUrlEx).1.toOption.getD miDefault

/-- yt-dlp metadata containing an `mhtml` storyboard format next to a
real one. -/
def raw10 : YtDlpRaw :=
  { title := some "Clip",
    formats := [{ format_note := some "720p", ext := some "mp4" },
                { ext := some "mhtml" }] }

/-- Environment delivering `raw10`. -/
def env10 : Env := { ytDlpInfo := fun _ => .ok raw10 }

/-- The `MediaInfo` the routes-module resolver returns under `env10`. -/
def minfo10 : MediaInfo := (routesGetInfo env10 ytUrlEx).toOption.getD miDefault

/-- The surviving format descriptor of `minfo10`. -/
def fd10 : FormatDesc :=
  { quality := "720p", ext := "mp4", filesize := none, fps := none,
    vcodec := none, acodec := none }

/-- A 100-character title: sanitization keeps all 100 characters. -/
def aHundred : String := String.mk (List.replicate 100 'a')

/-- A 101-character title whose sanitization ends in an underscore cut
off by the truncation, breaking idempotence. -/
def t101 : String := String.mk (List.replicate 99 'a' ++ ['_', 'b'])

/-! ### Theorems -/

/-- Helper: the classifier of the orchestrating module is the first-match
lookup in its fragment table. -/
lemma detectPlatform_eq_lookup (url : String) :
    detectPlatform url = fragLookup fragTableMain url := by
  unfold detectPlatform fragLookup fragTableMain
  cases h1 : jsIncludes (jsToLower url) "youtube.com" <;>
    cases h2 : jsIncludes (jsToLower url) "youtu.be" <;>
      cases h3 : jsIncludes (jsToLower url) "instagram.com" <;>
        cases h4 : jsIncludes (jsToLower url) "tiktok.com" <;>
          cases h5 : jsIncludes (jsToLower url) "vm.tiktok.com" <;>
            cases h6 : jsIncludes (jsToLower url) "snapchat.com" <;>
              simp [fragLookup, h1, h2, h3, h4, h5, h6]

/-- Helper: the routes-module classifier is the first-match lookup in its
fragment table. -/
lemma detectPlatformRoutes_eq_lookup (url : String) :
    detectPlatformRoutes url = fragLookup fragTableRoutes url := by
  unfold detectPlatformRoutes fragLookup fragTableRoutes
  cases h1 : jsIncludes (jsToLower url) "youtube.com" <;>
    cases h2 : jsIncludes (jsToLower url) "youtu.be" <;>
      cases h3 : jsIncludes (jsToLower url) "instagram.com" <;>
        cases h4 : jsIncludes (jsToLower url) "tiktok.com" <;>
          cases h5 : jsIncludes (jsToLower url) "facebook.com" <;>
            cases h6 : jsIncludes (jsToLower url) "x.com" <;>
              cases h7 : jsIncludes (jsToLower url) "twitter.com" <;>
                cases h8 : jsIncludes (jsToLower url) "reddit.com" <;>
                  cases h9 : jsIncludes (jsToLower url) "twitch.tv" <;>
                    simp [fragLookup, h1, h2, h3, h4, h5, h6, h7, h8, h9]

/-- C2: both `detectPlatform` versions are pure total functions equal to
the first-match lookup in their fixed fragment tables; any URL whose
lowercase form contains `youtube.com` or `youtu.be` classifies as
`youtube`; a URL containing a non-first fragment classifies to its tag
when no earlier fragment also occurs; a string containing no fragment
classifies as `unknown`. -/
theorem detectPlatform_fragment_table (url : String) :
    (detectPlatform url = fragLookup fragTableMain url ∧
     detectPlatformRoutes url = fragLookup fragTableRoutes url) ∧
    ((jsIncludes (jsToLower url) "youtube.com" = true ∨
      jsIncludes (jsToLower url) "youtu.be" = true) →
      detectPlatform url = "youtube" ∧ detectPlatformRoutes url = "youtube") ∧
    (jsIncludes (jsToLower url) "instagram.com" = true →
      jsIncludes (jsToLower url) "youtube.com" = false →
      jsIncludes (jsToLower url) "youtu.be" = false →
      detectPlatform url = "instagram") ∧
    (jsIncludes (jsToLower url) "tiktok.com" = true →
      jsIncludes (jsToLower url) "youtube.com" = false →
      jsIncludes (jsToLower url) "youtu.be" = false →
      jsIncludes (jsToLower url) "instagram.com" = false →
      detectPlatform url = "tiktok") ∧
    (jsIncludes (jsToLower url) "snapchat.com" = true →
      jsIncludes (jsToLower url) "youtube.com" = false →
      jsIncludes (jsToLower url) "youtu.be" = false →
      jsIncludes (jsToLower url) "instagram.com" = false →
      jsIncludes (jsToLower url) "tiktok.com" = false →
      jsIncludes (jsToLower url) "vm.tiktok.com" = false →
      detectPlatform url = "snapchat") ∧
    ((∀ e ∈ fragTableMain, jsIncludes (jsToLower url) e.1 = false) →
      detectPlatform url = "unknown") ∧
    ((∀ e ∈ fragTableRoutes, jsIncludes (jsToLower url) e.1 = false) →
      detectPlatformRoutes url = "unknown") := by
  refine ⟨⟨detectPlatform_eq_lookup url, detectPlatformRoutes_eq_lookup url⟩,
    ?_, ?_, ?_, ?_, ?_, ?_⟩
  · intro h
    rcases h with h | h <;>
      constructor <;> simp [detectPlatform, detectPlatformRoutes, h]
  · intro h h1 h2
    simp [detectPlatform, h, h1, h2]
  · intro h h1 h2 h3
    simp [detectPlatform, h, h1, h2, h3]
  · intro h h1 h2 h3 h4 h5
    simp [detectPlatform, h, h1, h2, h3, h4, h5]
  · intro h
    simp [fragTableMain] at h
    obtain ⟨h1, h2, h3, h4, h5, h6⟩ := h
    simp [detectPlatform, h1, h2, h3, h4, h5, h6]
  · intro h
    simp [fragTableRoutes] at h
    obtain ⟨h1, h2, h3, h4, h5, h6, h7, h8, h9⟩ := h
    simp [detectPlatformRoutes, h1, h2, h3, h4, h5, h6, h7, h8, h9]

/-- Witness for C2 at concrete URLs: a mixed-case youtu.be link, an
Instagram reel and a non-URL string. -/
theorem detectPlatform_fragment_table_witness :
    detectPlatform "HTTPS://YouTu.Be/dQw4w9WgXcQ" = "youtube" ∧
    detectPlatform "https://www.instagram.com/reel/abc123/" = "instagram" ∧
    detectPlatform "not a url" = "unknown" := by
  refine ⟨((detectPlatform_fragment_table "HTTPS://YouTu.Be/dQw4w9WgXcQ").2.1
      (Or.inr (by decide))).1,
    (detectPlatform_fragment_table "https://www.instagram.com/reel/abc123/").2.2.1
      (by decide) (by decide) (by decide),
    (detectPlatform_fragment_table "not a url").2.2.2.2.2.1 (by decide)⟩

/-- C3: `formatDuration` maps absent and zero durations to `null`, equals
the specification formula on every nonzero duration, and produces the
specified concrete values at 212, 3600 and 3725 seconds. -/
theorem formatDuration_correct :
    formatDuration none = none ∧
    formatDuration (some 0) = none ∧
    (∀ s : Nat, s ≠ 0 → formatDuration (some s) = some (formatDurationSpec s)) ∧
    formatDuration (some 212) = some "3:32" ∧
    formatDuration (some 3600) = some "1:00:00" ∧
    formatDuration (some 3725) = some "1:02:05" := by
  refine ⟨rfl, rfl, fun s hs => ?_, by decide, by decide, by decide⟩
  simp only [formatDuration, formatDurationSpec, hs, if_false]
  split <;> rfl

/-- Witness for C3's general clause at 212 seconds. -/
theorem formatDuration_correct_witness :
    formatDuration (some 212) = some (formatDurationSpec 212) :=
  formatDuration_correct.2.2.1 212 (by decide)

/-- C4: when the URL is well-formed but classifies as `unknown`, both
`getInfo` and `downloadMedia` fail immediately with the
unsupported-platform error, with an empty backend-attempt trace and no
file touched. -/
theorem unknown_platform_fails_without_attempts (env : Env) (url : String)
    (hv : isValidUrl env url = true)
    (hp : detectPlatform url = "unknown") :
    getInfo env url =
      (.error "Platform \x27unknown\x27 is not currently supported", []) ∧
    downloadMedia env url =
      (.error "Platform \x27unknown\x27 is not currently supported for downloads", [], none) := by
  constructor <;> simp [getInfo, downloadMedia, hv, hp]

/-- Witness for C4 at a well-formed non-social URL. -/
theorem unknown_platform_fails_without_attempts_witness :
    getInfo envDefault "https://example.com/media" =
      (.error "Platform \x27unknown\x27 is not currently supported", []) ∧
    downloadMedia envDefault "https://example.com/media" =
      (.error "Platform \x27unknown\x27 is not currently supported for downloads", [], none) :=
  unknown_platform_fails_without_attempts envDefault "https://example.com/media"
    (by decide) (by decide)

/-- C5: when the runtime URL parser rejects the string, both `getInfo` and
`downloadMedia` fail with `Invalid URL provided` with an empty
backend-attempt trace; the result does not depend on any other oracle, so
no classification outcome or backend response can influence it. -/
theorem invalid_url_rejected_before_backends (env : Env) (url : String)
    (hv : env.urlParses url = false) :
    getInfo env url = (.error "Invalid URL provided", []) ∧
    downloadMedia env url = (.error "Invalid URL provided", [], none) := by
  constructor <;> simp [getInfo, downloadMedia, isValidUrl, hv]

/-- Witness for C5 on a string the parser rejects. -/
theorem invalid_url_rejected_before_backends_witness :
    getInfo envNoParse "not a url" = (.error "Invalid URL provided", []) ∧
    downloadMedia envNoParse "not a url" = (.error "Invalid URL provided", [], none) :=
  invalid_url_rejected_before_backends envNoParse "not a url" rfl

/-- C1: on a YouTube-classified URL with an extractable video id, when the
first backend (play-dl) fails and the second (yt-dlp) is available and
succeeds, `getInfo` returns exactly the `MediaInfo` normalized from the
second backend's raw data, and the attempt trace shows the two backends
tried in priority order. -/
theorem getInfo_fallback_second_backend (env : Env) (url vid e : String)
    (raw : YtDlpRaw)
    (hv : isValidUrl env url = true)
    (hp : detectPlatform url = "youtube")
    (hid : extractYoutubeVideoId url = some vid)
    (hfail : env.playInfo url = .error e)
    (havail : env.ytDlpAvailable = true)
    (hok : env.ytDlpInfo url = .ok raw) :
    getInfo env url =
      (.ok (normalizeYtDlpRaw url raw), [.playdlInfo, .ytdlpInfo]) := by
  simp [getInfo, getYoutubeInfo, getInfoWithYtDlp, hv, hp, hid, hfail, havail, hok]

/-- Witness for C1: play-dl fails, yt-dlp answers, and the resolved record
is the one normalized from the yt-dlp payload. -/
theorem getInfo_fallback_second_backend_witness :
    getInfo envC1 ytUrlEx =
      (.ok (normalizeYtDlpRaw ytUrlEx rawC1), [.playdlInfo, .ytdlpInfo]) :=
  getInfo_fallback_second_backend envC1 ytUrlEx "dQw4w9WgXcQ" "play-dl failed"
    rawC1 rfl (by decide) (by decide) rfl rfl rfl

/-- C10: every format descriptor in a `MediaInfo` returned by the
routes-module `getInfo` has an extension different from `mhtml`: raw
entries whose `ext` is `mhtml` are filtered out before the record is
returned. -/
theorem routesGetInfo_formats_no_mhtml (env : Env) (url : String)
    (r : MediaInfo) (h : routesGetInfo env url = .ok r) :
    ∀ f ∈ r.formats, f.ext ≠ "mhtml" := by
  unfold routesGetInfo at h
  cases he : env.ytDlpInfo url with
  | error e => rw [he] at h; exact absurd h (by simp)
  | ok info =>
    rw [he] at h
    cases h
    intro f hf
    simp only [routesFormats, List.mem_filter] at hf
    simpa using hf.2

/-- Witness for C10: the surviving descriptor of a run whose raw formats
contained an `mhtml` storyboard entry. -/
theorem routesGetInfo_formats_no_mhtml_witness : fd10.ext ≠ "mhtml" :=
  routesGetInfo_formats_no_mhtml env10 ytUrlEx minfo10 rfl fd10 (by decide)

/-- Helper: the yt-dlp normalizer derives `durationFormatted` from the
same raw field as `duration`, so one is `none` exactly when the other
is. -/
lemma formatDuration_none_iff (d : Option Nat) :
    (formatDuration d = none ↔ jsOrNullNat d = none) := by
  cases d with
  | none => simp [formatDuration, jsOrNullNat]
  | some s =>
    by_cases h : s = 0
    · simp [formatDuration, jsOrNullNat, h]
    · simp [formatDuration, jsOrNullNat, h]
      split <;> simp

/-- Helper: the duration iff for any record built by `normalizeYtDlpRaw`. -/
lemma normalizeYtDlpRaw_duration_iff (url : String) (info : YtDlpRaw) :
    ((normalizeYtDlpRaw url info).durationFormatted = none ↔
     (normalizeYtDlpRaw url info).duration = none) := by
  simpa [normalizeYtDlpRaw] using formatDuration_none_iff info.duration

/-- Helper: inversion of a successful `getYoutubeInfo`: the record comes
either from the play-dl branch or from the yt-dlp normalizer. -/
lemma getYoutubeInfo_ok_inv (env : Env) (url : String) (r : MediaInfo)
    (tr : List Mech) (h : getYoutubeInfo env url = (.ok r, tr)) :
    (∃ vid vd, extractYoutubeVideoId url = some vid ∧
      env.playInfo url = .ok vd ∧ r = normalizePlayDl url vid vd) ∨
    (∃ raw, env.ytDlpInfo url = .ok raw ∧ r = normalizeYtDlpRaw url raw) := by
  unfold getYoutubeInfo at h
  cases hid : extractYoutubeVideoId url with
  | none =>
    rw [hid] at h
    by_cases hav : env.ytDlpAvailable = true <;> simp only [hav, if_true, if_false] at h
    · cases hyd : env.ytDlpInfo url with
      | error e2 => simp [getInfoWithYtDlp, hyd] at h
      | ok raw =>
        simp [getInfoWithYtDlp, hyd] at h
        exact .inr ⟨raw, rfl, h.1.symm⟩
    · simp at h
  | some vid =>
    rw [hid] at h
    cases hpi : env.playInfo url with
    | ok vd =>
      rw [hpi] at h
      simp at h
      exact .inl ⟨vid, vd, rfl, rfl, h.1.symm⟩
    | error e1 =>
      rw [hpi] at h
      by_cases hav : env.ytDlpAvailable = true <;> simp only [hav, if_true, if_false] at h
      · cases hyd : env.ytDlpInfo url with
        | error e2 => simp [getInfoWithYtDlp, hyd] at h
        | ok raw =>
          simp [getInfoWithYtDlp, hyd] at h
          exact .inr ⟨raw, rfl, h.1.symm⟩
      · simp at h

/-- Helper: the duration iff for a successful `getInstagramInfo`. -/
lemma getInstagramInfo_duration_iff (env : Env) (url : String)
    (r : MediaInfo) (tr : List Mech)
    (h : getInstagramInfo env url = (.ok r, tr)) :
    (r.durationFormatted = none ↔ r.duration = none) := by
  unfold getInstagramInfo at h
  by_cases hav : env.ytDlpAvailable = true <;> simp only [hav, if_true, if_false] at h
  · cases hyd : env.ytDlpInfo url with
    | error e => simp [getInfoWithYtDlp, hyd] at h
    | ok raw =>
      simp [getInfoWithYtDlp, hyd] at h
      rw [← h.1]
      exact normalizeYtDlpRaw_duration_iff url raw
  · simp at h
    rw [← h.1]
    simp

/-- Helper: the duration iff for a successful `getTiktokInfo`. -/
lemma getTiktokInfo_duration_iff (env : Env) (url : String)
    (r : MediaInfo) (tr : List Mech)
    (h : getTiktokInfo env url = (.ok r, tr)) :
    (r.durationFormatted = none ↔ r.duration = none) := by
  unfold getTiktokInfo at h
  by_cases hav : env.ytDlpAvailable = true <;> simp only [hav, if_true, if_false] at h
  · cases hyd : env.ytDlpInfo url with
    | error e => simp [getInfoWithYtDlp, hyd] at h
    | ok raw =>
      simp [getInfoWithYtDlp, hyd] at h
      rw [← h.1]
      exact normalizeYtDlpRaw_duration_iff url raw
  · simp at h
    rw [← h.1]
    simp

/-- Helper: the duration iff for a successful `getSnapchatInfo`. -/
lemma getSnapchatInfo_duration_iff (env : Env) (url : String)
    (r : MediaInfo) (tr : List Mech)
    (h : getSnapchatInfo env url = (.ok r, tr)) :
    (r.durationFormatted = none ↔ r.duration = none) := by
  unfold getSnapchatInfo at h
  by_cases hav : env.ytDlpAvailable = true <;> simp only [hav, if_true, if_false] at h
  · cases hyd : env.ytDlpInfo url with
    | error e =>
      simp [getInfoWithYtDlp, hyd] at h
      rw [← h.1]
      simp [snapchatFallback]
    | ok raw =>
      simp [getInfoWithYtDlp, hyd] at h
      rw [← h.1]
      exact normalizeYtDlpRaw_duration_iff url raw
  · simp at h
    rw [← h.1]
    simp [snapchatFallback]

/-- C8 (amended): in every `MediaInfo` built by a normalizing path — the
yt-dlp normalizer behind `getInfo`, every non-YouTube handler, and the
routes-module `getInfo` — `durationFormatted` is `null` iff `duration`
is; on the play-dl YouTube branch both fields are verbatim copies of the
library's `durationInSec`/`durationRaw`, so the equivalence holds exactly
when the library's own output satisfies it. -/
theorem durationFormatted_none_iff_amended :
    (∀ (env : Env) (url : String) (r : MediaInfo) (tr : List Mech),
      (∀ u vd, env.playInfo u = .ok vd →
        (vd.durationRaw = none ↔ vd.durationInSec = none)) →
      getInfo env url = (.ok r, tr) →
      (r.durationFormatted = none ↔ r.duration = none)) ∧
    (∀ (env : Env) (url : String) (r : MediaInfo),
      routesGetInfo env url = .ok r →
      (r.durationFormatted = none ↔ r.duration = none)) := by
  constructor
  · intro env url r tr hcons h
    unfold getInfo at h
    by_cases hv : isValidUrl env url = true
    case neg => simp [hv] at h
    simp only [hv, if_true] at h
    by_cases h1 : detectPlatform url = "youtube"
    case pos =>
      simp only [h1, if_true] at h
      rcases getYoutubeInfo_ok_inv env url r tr h with
        ⟨vid, vd, _, hpi, hr⟩ | ⟨raw, _, hr⟩
      · subst hr
        simpa [normalizePlayDl] using hcons url vd hpi
      · subst hr
        exact normalizeYtDlpRaw_duration_iff url raw
    simp only [h1, if_false] at h
    by_cases h2 : detectPlatform url = "instagram"
    case pos =>
      simp only [h2, if_true] at h
      exact getInstagramInfo_duration_iff env url r tr h
    simp only [h2, if_false] at h
    by_cases h3 : detectPlatform url = "tiktok"
    case pos =>
      simp only [h3, if_true] at h
      exact getTiktokInfo_duration_iff env url r tr h
    simp only [h3, if_false] at h
    by_cases h4 : detectPlatform url = "snapchat"
    case pos =>
      simp only [h4, if_true] at h
      exact getSnapchatInfo_duration_iff env url r tr h
    simp [h4] at h
  · intro env url r h
    unfold routesGetInfo at h
    cases hyd : env.ytDlpInfo url with
    | error e => rw [hyd] at h; exact absurd h (by simp)
    | ok info =>
      rw [hyd] at h
      cases h
      simpa using formatDuration_none_iff info.duration

/-- Counterexample to C8 as stated: with the play-dl library reporting a
five-second duration but no raw duration string, the resolver returns a
`MediaInfo` whose `duration` is non-null while `durationFormatted` is
null, because the play-dl branch copies both fields verbatim. -/
theorem durationFormatted_none_iff_counterexample :
    (getInfo envC8 ytUrlEx).1 = .ok minfo8 ∧
    minfo8.duration = some 5 ∧
    minfo8.durationFormatted = none :=
  ⟨rfl, rfl, rfl⟩

/-- Witness for the amended C8 on a consistent play-dl record. -/
theorem durationFormatted_none_iff_amended_witness :
    (minfo8w.durationFormatted = none ↔ minfo8w.duration = none) :=
  durationFormatted_none_iff_amended.1 envC8w ytUrlEx minfo8w [.playdlInfo]
    (fun _ vd h => by injection h with h2; subst h2; decide) rfl

/-- Helper: value of a decimal digit character. -/
lemma digitChar_toNat_sub (n : Nat) (h : n < 10) :
    (Nat.digitChar n).toNat - 48 = n := by
  interval_cases n <;> decide

/-- Helper: `decodeDec` with a running accumulator. -/
lemma decodeDec_foldl_aux (fuel n acc : Nat) (h : n < fuel) :
    List.foldl (fun a c => a * 10 + (c.toNat - 48)) acc (natDecAux fuel n) =
      acc * 10 ^ (natDecAux fuel n).length + n := by
  induction fuel generalizing n acc with
  | zero => omega
  | succ f ih =>
    by_cases h10 : n < 10
    · simp [natDecAux, h10, digitChar_toNat_sub n h10]
    · have hlt : n / 10 < f := by
        have := Nat.div_lt_self (n := n) (k := 10) (by omega) (by omega)
        omega
      simp only [natDecAux, h10, if_false, List.foldl_append, List.length_append,
        List.length_cons, List.length_nil]
      rw [ih (n / 10) acc hlt]
      simp [List.foldl, digitChar_toNat_sub (n % 10) (Nat.mod_lt n (by omega)),
        pow_succ]
      ring_nf
      omega

/-- Helper: decoding inverts the decimal rendering. -/
lemma decodeDec_natDec (n : Nat) : decodeDec (natDec n) = n := by
  have := decodeDec_foldl_aux (n + 1) n 0 (by omega)
  simpa [decodeDec, natDec] using this

/-- Helper: the decimal rendering is injective. -/
lemma natDec_inj {m n : Nat} (h : natDec m = natDec n) : m = n := by
  have := congrArg decodeDec h
  rwa [decodeDec_natDec, decodeDec_natDec] at this

/-- Helper: string concatenation acts on the character data. -/
lemma string_data_append (a b : String) : (a ++ b).data = a.data ++ b.data := by
  cases a; cases b; rfl

/-- Helper: the version-1 filename determines the `Date.now()` value used
to build it (for a fixed title). -/
lemma mkFilenameV1_inj (title : String) {ts1 ts2 : Nat}
    (h : mkFilenameV1 title ts1 = mkFilenameV1 title ts2) : ts1 = ts2 := by
  unfold mkFilenameV1 at h
  have hd := congrArg String.data h
  simp only [string_data_append, natDecStr, List.append_assoc] at hd
  have h1 := List.append_cancel_left hd
  have h2 := List.append_cancel_left h1
  exact natDec_inj (List.append_cancel_right h2)

/-- C9 (amended): two downloads of the same URL produce distinct filenames
and leave two distinct files in the download directory whenever the two
`Date.now()` readings differ; the uniqueness of the produced filenames
rests entirely on the millisecond timestamps being distinct. -/
theorem distinct_timestamps_distinct_files (title : String) (ts1 ts2 : Nat)
    (h : ts1 ≠ ts2) :
    mkFilenameV1 title ts1 ≠ mkFilenameV1 title ts2 ∧
    (dirAfterTwoDownloads title ts1 ts2).length = 2 := by
  have hne : mkFilenameV1 title ts1 ≠ mkFilenameV1 title ts2 :=
    fun he => h (mkFilenameV1_inj title he)
  refine ⟨hne, ?_⟩
  simp only [dirAfterTwoDownloads]
  rw [if_neg (fun he => hne he.symm)]
  rfl

/-- Counterexample to C9 as stated: two concurrent requests that read the
same millisecond from `Date.now()` build the same filename, the second
write truncates the first, and only one file is left in the download
directory instead of the claimed two distinct files. -/
theorem same_timestamp_filename_collision :
    mkFilenameV1 "video" 1700000000000 = mkFilenameV1 "video" 1700000000000 ∧
    (dirAfterTwoDownloads "video" 1700000000000 1700000000000).length = 1 := by
  constructor
  · rfl
  · decide

/-- Witness for the amended C9 at two adjacent millisecond timestamps. -/
theorem distinct_timestamps_distinct_files_witness :
    mkFilenameV1 "video" 1700000000000 ≠ mkFilenameV1 "video" 1700000000001 ∧
    (dirAfterTwoDownloads "video" 1700000000000 1700000000001).length = 2 :=
  distinct_timestamps_distinct_files "video" 1700000000000 1700000000001
    (by omega)

/-- C7: evaluation of `downloadYoutube` at the write-error scenario.
The stream-error and finish paths behave as the claim says (cleanup,
success only after `finish`), and the first module version's promise
deletes the partial file on both error kinds; but when the write stream
errors in `downloadYoutube` (the handler registered at
src/unnamed/part_003 line 453 is a bare `reject`), the failed download
leaves the partial file `Test_1000.mp4` in the download directory. -/
theorem downloadYoutube_write_error_leaves_partial :
    (downloadYoutube env7w ytUrlEx).1 = .error "disk full" ∧
    (downloadYoutube env7w ytUrlEx).2.2 = some "Test_1000.mp4" ∧
    (downloadYoutube env7f ytUrlEx).2.2 = none ∧
    (downloadYoutube env7f ytUrlEx).1 =
      .ok { filename := "Test_1000.mp4"
            downloadUrl := "/downloads/Test_1000.mp4"
            filesize := 0
            platform := "youtube"
            title := some "Test"
            uploader := some "Unknown"
            thumbnail := none } ∧
    (∀ m, downloadMediaV1Promise (.writeError m) =
      (.error "Failed to write video file", false)) ∧
    (∀ m, downloadMediaV1Promise (.streamError m) =
      (.error "Failed to download video stream", false)) ∧
    downloadMediaV1Promise .finish = (.ok (), true) :=
  ⟨rfl, rfl, rfl, rfl, fun _ => rfl, fun _ => rfl, rfl⟩


/-- Helper: unfolding equations for `squeezeRuns` on a run character. -/
lemma squeezeRuns_cons_pos (p : Char → Bool) (a : Char) (t : List Char)
    (hp : p a = true) :
    squeezeRuns p true (a :: t) = squeezeRuns p true t ∧
    squeezeRuns p false (a :: t) = '_' :: squeezeRuns p true t := by
  constructor <;> simp [squeezeRuns, hp]

/-- Helper: unfolding equation for `squeezeRuns` on a non-run
character. -/
lemma squeezeRuns_cons_neg (p : Char → Bool) (b : Bool) (a : Char)
    (t : List Char) (hp : p a = false) :
    squeezeRuns p b (a :: t) = a :: squeezeRuns p false t := by
  cases b <;> simp [squeezeRuns, hp]

/-- Helper: every character of a squeezed list is the replacement
underscore or an original character not matched by the run predicate. -/
lemma mem_squeezeRuns (p : Char → Bool) (b : Bool) (l : List Char) (c : Char)
    (h : c ∈ squeezeRuns p b l) : c = '_' ∨ (c ∈ l ∧ p c = false) := by
  induction l generalizing b with
  | nil => simp [squeezeRuns] at h
  | cons a t ih =>
    by_cases hp : p a = true
    · cases b with
      | true =>
        rw [(squeezeRuns_cons_pos p a t hp).1] at h
        rcases ih true h with h' | ⟨hm, hf⟩
        · exact .inl h'
        · exact .inr ⟨List.mem_cons_of_mem a hm, hf⟩
      | false =>
        rw [(squeezeRuns_cons_pos p a t hp).2] at h
        rcases List.mem_cons.mp h with h' | h'
        · exact .inl h'
        · rcases ih true h' with h'' | ⟨hm, hf⟩
          · exact .inl h''
          · exact .inr ⟨List.mem_cons_of_mem a hm, hf⟩
    · rw [squeezeRuns_cons_neg p b a t (by simpa using hp)] at h
      rcases List.mem_cons.mp h with h' | h'
      · subst h'
        exact .inr ⟨List.mem_cons_self c t, by simpa using hp⟩
      · rcases ih false h' with h'' | ⟨hm, hf⟩
        · exact .inl h''
        · exact .inr ⟨List.mem_cons_of_mem a hm, hf⟩

/-- Helper: squeezing is the identity on lists without run characters. -/
lemma squeezeRuns_id (p : Char → Bool) (b : Bool) (l : List Char)
    (h : ∀ c ∈ l, p c = false) : squeezeRuns p b l = l := by
  induction l generalizing b with
  | nil => rfl
  | cons a t ih =>
    rw [squeezeRuns_cons_neg p b a t (h a (List.mem_cons_self a t))]
    rw [ih false (fun c hc => h c (List.mem_cons_of_mem a hc))]

/-- Helper: inside a run, the next emitted character is not an
underscore. -/
lemma squeezeRuns_us_true_head (l : List Char) (c : Char)
    (h : (squeezeRuns (fun x => x == '_') true l).head? = some c) : c ≠ '_' := by
  induction l with
  | nil => simp [squeezeRuns] at h
  | cons a t ih =>
    by_cases hp : a = '_'
    · subst hp
      rw [(squeezeRuns_cons_pos _ '_' t (by simp)).1] at h
      exact ih h
    · rw [squeezeRuns_cons_neg _ true a t (by simpa using hp)] at h
      simp only [List.head?_cons, Option.some.injEq] at h
      subst h
      exact hp

/-- Helper: underscore squeezing leaves no two adjacent underscores. -/
lemma squeezeRuns_us_chain (l : List Char) (b : Bool) :
    List.Chain' (fun x y => ¬(x = '_' ∧ y = '_'))
      (squeezeRuns (fun x => x == '_') b l) := by
  induction l generalizing b with
  | nil => simp [squeezeRuns]
  | cons a t ih =>
    by_cases hp : a = '_'
    · subst hp
      cases b with
      | true =>
        rw [(squeezeRuns_cons_pos _ '_' t (by simp)).1]
        exact ih true
      | false =>
        rw [(squeezeRuns_cons_pos _ '_' t (by simp)).2]
        rw [List.chain'_cons']
        refine ⟨fun y hy hc => ?_, ih true⟩
        exact squeezeRuns_us_true_head t y (Option.mem_def.mp hy) hc.2
    · rw [squeezeRuns_cons_neg _ b a t (by simpa using hp)]
      rw [List.chain'_cons']
      exact ⟨fun y _ hc => hp hc.1, ih false⟩

/-- Helper: the two run states agree when the head is not an
underscore. -/
lemma squeezeRuns_us_true_eq_false (l : List Char)
    (h : ∀ c, l.head? = some c → c ≠ '_') :
    squeezeRuns (fun x => x == '_') true l =
      squeezeRuns (fun x => x == '_') false l := by
  cases l with
  | nil => rfl
  | cons a t =>
    have ha : ((a == '_') : Bool) = false := by simpa using h a rfl
    rw [squeezeRuns_cons_neg _ true a t ha, squeezeRuns_cons_neg _ false a t ha]

/-- Helper: underscore squeezing is the identity on lists without
adjacent underscores. -/
lemma squeezeRuns_us_id_of_chain (l : List Char)
    (h : List.Chain' (fun x y => ¬(x = '_' ∧ y = '_')) l) :
    squeezeRuns (fun x => x == '_') false l = l := by
  induction l with
  | nil => rfl
  | cons a t ih =>
    rw [List.chain'_cons'] at h
    obtain ⟨hhead, hch⟩ := h
    by_cases hp : a = '_'
    · subst hp
      rw [(squeezeRuns_cons_pos _ '_' t (by simp)).2]
      have ht : ∀ c, t.head? = some c → c ≠ '_' := by
        intro c hc heq
        subst heq
        exact hhead '_' (Option.mem_def.mpr hc) ⟨rfl, rfl⟩
      rw [squeezeRuns_us_true_eq_false t ht, ih hch]
    · rw [squeezeRuns_cons_neg _ false a t (by simpa using hp)]
      rw [ih hch]

/-- Helper: removing the trailing underscore run produces a prefix. -/
lemma dropTrailUnd_pre (l : List Char) : ∃ t, l = dropTrailUnd l ++ t := by
  induction l with
  | nil => exact ⟨[], rfl⟩
  | cons a t ih =>
    obtain ⟨u, hu⟩ := ih
    cases hdt : dropTrailUnd t with
    | nil =>
      by_cases ha : a = '_'
      · exact ⟨a :: t, by simp [dropTrailUnd, hdt, ha]⟩
      · refine ⟨t, ?_⟩
        have hb : ((a == '_') : Bool) = false := by simpa using ha
        simp [dropTrailUnd, hdt, hb]
    | cons x xs =>
      refine ⟨u, ?_⟩
      rw [hdt] at hu
      simp only [dropTrailUnd, hdt]
      rw [List.cons_append, ← hu]

/-- Helper: stripping the leading run of a predicate produces a
suffix. -/
lemma dropWhile_suf (p : Char → Bool) (l : List Char) :
    ∃ t, l = t ++ l.dropWhile p := by
  induction l with
  | nil => exact ⟨[], rfl⟩
  | cons a t ih =>
    by_cases hp : p a = true
    · obtain ⟨u, hu⟩ := ih
      exact ⟨a :: u, by rw [List.dropWhile_cons, if_pos hp, List.cons_append, ← hu]⟩
    · exact ⟨[], by rw [List.dropWhile_cons, if_neg hp, List.nil_append]⟩

/-- Helper: membership passes through the boundary trim. -/
lemma mem_trimUnd (l : List Char) (c : Char) (h : c ∈ trimUnd l) : c ∈ l := by
  unfold trimUnd at h
  obtain ⟨t1, ht1⟩ := dropTrailUnd_pre (l.dropWhile (fun x => x == '_'))
  obtain ⟨t2, ht2⟩ := dropWhile_suf (fun x => x == '_') l
  rw [ht2, ht1]
  exact List.mem_append_right t2 (List.mem_append_left t1 h)

/-- Helper: the chain property passes through the boundary trim. -/
lemma chain_trimUnd (l : List Char)
    (h : List.Chain' (fun x y => ¬(x = '_' ∧ y = '_')) l) :
    List.Chain' (fun x y => ¬(x = '_' ∧ y = '_')) (trimUnd l) := by
  unfold trimUnd
  obtain ⟨t1, ht1⟩ := dropTrailUnd_pre (l.dropWhile (fun x => x == '_'))
  obtain ⟨t2, ht2⟩ := dropWhile_suf (fun x => x == '_') l
  have h1 : List.Chain' (fun x y => ¬(x = '_' ∧ y = '_'))
      (l.dropWhile (fun x => x == '_')) := by
    rw [ht2] at h
    exact h.right_of_append
  rw [ht1] at h1
  exact h1.left_of_append

/-- Helper: after `dropWhile` on underscores the head is not an
underscore. -/
lemma head_dropWhile_us (l : List Char) (c : Char)
    (h : (l.dropWhile (fun x => x == '_')).head? = some c) : c ≠ '_' := by
  induction l with
  | nil => simp at h
  | cons a t ih =>
    by_cases hp : a = '_'
    · subst hp
      rw [List.dropWhile_cons, if_pos (by simp)] at h
      exact ih h
    · rw [List.dropWhile_cons, if_neg (by simpa using hp)] at h
      simp only [List.head?_cons, Option.some.injEq] at h
      subst h
      exact hp

/-- Helper: the boundary trim keeps the head of its input. -/
lemma head_dropTrailUnd (l : List Char) (c : Char)
    (h : (dropTrailUnd l).head? = some c) : l.head? = some c := by
  obtain ⟨t, ht⟩ := dropTrailUnd_pre l
  cases hdt : dropTrailUnd l with
  | nil => rw [hdt] at h; simp at h
  | cons x xs =>
    rw [hdt] at h ht
    rw [ht]
    simpa using h

/-- Helper: truncation keeps the head of its input. -/
lemma head_take (n : Nat) (l : List Char) (c : Char)
    (h : (l.take n).head? = some c) : l.head? = some c := by
  cases l with
  | nil => simp at h
  | cons a t =>
    cases n with
    | zero => simp at h
    | succ m => simpa using h

/-- Helper: the last character surviving the trailing trim is not an
underscore. -/
lemma getLast_dropTrailUnd (l : List Char) (c : Char)
    (h : (dropTrailUnd l).getLast? = some c) : c ≠ '_' := by
  induction l with
  | nil => simp [dropTrailUnd] at h
  | cons a t ih =>
    simp only [dropTrailUnd] at h
    cases hdt : dropTrailUnd t with
    | nil =>
      rw [hdt] at h
      by_cases ha : a = '_'
      · simp [ha] at h
      · have hb : ((a == '_') : Bool) = false := by simpa using ha
        rw [hb, if_neg Bool.false_ne_true] at h
        simp only [List.getLast?_singleton, Option.some.injEq] at h
        subst h
        exact ha
    | cons x xs =>
      rw [hdt] at h
      rw [List.getLast?_cons_cons] at h
      exact ih (by rw [hdt]; exact h)

/-- Helper: `dropWhile` is the identity when the head does not match. -/
lemma dropWhile_us_eq_self (l : List Char)
    (h : ∀ c, l.head? = some c → c ≠ '_') :
    l.dropWhile (fun x => x == '_') = l := by
  cases l with
  | nil => rfl
  | cons a t =>
    have ha : ((a == '_') : Bool) = false := by simpa using h a rfl
    rw [List.dropWhile_cons, if_neg (by simp [ha])]

/-- Helper: the trailing trim is the identity when the last character is
not an underscore. -/
lemma dropTrailUnd_eq_self (l : List Char)
    (h : ∀ c, l.getLast? = some c → c ≠ '_') : dropTrailUnd l = l := by
  induction l with
  | nil => rfl
  | cons a t ih =>
    by_cases ht : t = []
    · subst ht
      have ha := h a rfl
      have hb : ((a == '_') : Bool) = false := by simpa using ha
      simp [dropTrailUnd, hb]
    · obtain ⟨x, xs, rfl⟩ := List.exists_cons_of_ne_nil ht
      have htail : ∀ c, (x :: xs).getLast? = some c → c ≠ '_' := fun c hc =>
        h c (by rw [List.getLast?_cons_cons]; exact hc)
      have hu : dropTrailUnd (a :: x :: xs) =
          match dropTrailUnd (x :: xs) with
          | [] => if a == '_' then [] else [a]
          | r => a :: r := rfl
      rw [hu, ih htail]

/-- Helper: characters of the allowed class are not JS whitespace. -/
lemma allowed_not_ws (c : Char) (h : isAllowedChar c = true) : isJsWs c = false := by
  rw [isAllowedChar, decide_eq_true_eq] at h
  rw [isJsWs, decide_eq_false_iff_not]
  omega

/-- Helper: a list map that fixes every element is the identity. -/
lemma map_id_of_mem {f : Char → Char} (l : List Char)
    (h : ∀ c ∈ l, f c = c) : l.map f = l := by
  induction l with
  | nil => rfl
  | cons a t ih =>
    rw [List.map_cons, h a (List.mem_cons_self a t),
      ih (fun c hc => h c (List.mem_cons_of_mem a hc))]

/-- Helper: every character of a sanitized list is in the allowed class
(and hence not whitespace). -/
lemma sanitizeChars_mem (l : List Char) (c : Char) (h : c ∈ sanitizeChars l) :
    isAllowedChar c = true := by
  simp only [sanitizeChars] at h
  have h4 := List.mem_of_mem_take h
  have h3 := mem_trimUnd _ _ h4
  rcases mem_squeezeRuns _ _ _ _ h3 with rfl | ⟨h2, _⟩
  · decide
  rcases mem_squeezeRuns _ _ _ _ h2 with rfl | ⟨h1, hws⟩
  · decide
  rcases List.mem_map.mp h1 with ⟨a, _, hfa⟩
  by_cases hcond : (isAllowedChar a || isJsWs a) = true
  · rw [if_pos hcond] at hfa
    subst hfa
    rcases Bool.or_eq_true_iff.mp hcond with hall | hws'
    · exact hall
    · rw [hws'] at hws
      exact absurd hws (by simp)
  · rw [if_neg hcond] at hfa
    subst hfa
    decide

/-- Helper: a sanitized list never has two adjacent underscores. -/
lemma sanitizeChars_chain (l : List Char) :
    List.Chain' (fun x y => ¬(x = '_' ∧ y = '_')) (sanitizeChars l) := by
  simp only [sanitizeChars]
  have h4 := chain_trimUnd _ (squeezeRuns_us_chain
    (squeezeRuns isJsWs false
      (l.map (fun c => if isAllowedChar c || isJsWs c then c else '_'))) false)
  rw [← List.take_append_drop 100 (trimUnd _)] at h4
  exact h4.left_of_append

/-- Helper: a sanitized list does not start with an underscore. -/
lemma sanitizeChars_head (l : List Char) :
    (sanitizeChars l).head? ≠ some '_' := by
  intro h
  simp only [sanitizeChars] at h
  have h1 := head_take _ _ _ h
  have h2 := head_dropTrailUnd _ _ h1
  exact head_dropWhile_us _ _ h2 rfl

/-- Helper: a sanitized list has at most 100 characters. -/
lemma sanitizeChars_len (l : List Char) : (sanitizeChars l).length ≤ 100 := by
  simp only [sanitizeChars, List.length_take]
  omega

/-- Helper: a trailing underscore survives only when the truncation to
100 characters actually cut the string. -/
lemma sanitizeChars_last (l : List Char)
    (hlen : (sanitizeChars l).length < 100) :
    (sanitizeChars l).getLast? ≠ some '_' := by
  intro h
  have heq : sanitizeChars l =
      trimUnd (squeezeRuns (fun c => c == '_') false
        (squeezeRuns isJsWs false
          (l.map (fun c => if isAllowedChar c || isJsWs c then c else '_')))) := by
    simp only [sanitizeChars, List.length_take] at hlen ⊢
    exact List.take_of_length_le (by omega)
  rw [heq] at h
  exact getLast_dropTrailUnd _ _ h rfl

/-- Helper: sanitization is idempotent whenever its output does not end in
an underscore. -/
lemma sanitizeChars_idem (l : List Char)
    (h : (sanitizeChars l).getLast? ≠ some '_') :
    sanitizeChars (sanitizeChars l) = sanitizeChars l := by
  have hmem := sanitizeChars_mem l
  have e1 : (sanitizeChars l).map
      (fun c => if isAllowedChar c || isJsWs c then c else '_') = sanitizeChars l := by
    refine map_id_of_mem _ (fun c hc => ?_)
    rw [if_pos (by rw [hmem c hc, Bool.true_or])]
  have e2 : squeezeRuns isJsWs false (sanitizeChars l) = sanitizeChars l :=
    squeezeRuns_id _ _ _ (fun c hc => allowed_not_ws c (hmem c hc))
  have e3 : squeezeRuns (fun c => c == '_') false (sanitizeChars l) =
      sanitizeChars l :=
    squeezeRuns_us_id_of_chain _ (sanitizeChars_chain l)
  have e4 : trimUnd (sanitizeChars l) = sanitizeChars l := by
    unfold trimUnd
    rw [dropWhile_us_eq_self _ (fun c hc heq =>
      sanitizeChars_head l (heq ▸ hc)),
      dropTrailUnd_eq_self _ (fun c hc heq => h (heq ▸ hc))]
  show (trimUnd (squeezeRuns (fun c => c == '_') false
    (squeezeRuns isJsWs false ((sanitizeChars l).map
      (fun c => if isAllowedChar c || isJsWs c then c else '_'))))).take 100 =
    sanitizeChars l
  rw [e1, e2, e3, e4]
  exact List.take_of_length_le (sanitizeChars_len l)

/-- C6 (amended): `sanitizeFilename` keeps only characters of
`[A-Za-z0-9_-]`, never produces two adjacent underscores, never starts
with an underscore, and truncates to at most 100 characters (the source
bound is `substring(0, 100)`, not 80); a trailing underscore can remain
only when the truncation cut a longer string, and on every input whose
output does not end in an underscore — in particular whenever the output
is shorter than 100 characters — sanitization is idempotent. -/
theorem sanitizeFilename_sanitizes (s : String) :
    (∀ c ∈ (sanitizeFilename s).data, isAllowedChar c = true) ∧
    List.Chain' (fun x y => ¬(x = '_' ∧ y = '_')) (sanitizeFilename s).data ∧
    (sanitizeFilename s).data.head? ≠ some '_' ∧
    (sanitizeFilename s).data.length ≤ 100 ∧
    ((sanitizeFilename s).data.length < 100 →
      (sanitizeFilename s).data.getLast? ≠ some '_') ∧
    ((sanitizeFilename s).data.getLast? ≠ some '_' →
      sanitizeFilename (sanitizeFilename s) = sanitizeFilename s) := by
  refine ⟨fun c hc => sanitizeChars_mem s.data c hc,
    sanitizeChars_chain s.data,
    sanitizeChars_head s.data,
    sanitizeChars_len s.data,
    fun hlen => sanitizeChars_last s.data hlen,
    fun hlast => ?_⟩
  show String.mk (sanitizeChars (sanitizeChars s.data)) =
    String.mk (sanitizeChars s.data)
  rw [sanitizeChars_idem s.data hlast]

/-- Counterexample to C6 as stated: a 100-character title is returned
whole (longer than the claimed 80-character bound), and on a 101-character
title whose truncation cuts just before a `_b` tail the second
sanitization differs from the first, refuting idempotence. -/
theorem sanitizeFilename_counterexample :
    (sanitizeFilename aHundred).data.length = 100 ∧
    ¬(sanitizeFilename aHundred).data.length ≤ 80 ∧
    sanitizeFilename (sanitizeFilename t101) ≠ sanitizeFilename t101 := by
  refine ⟨by decide, by decide, by decide⟩

/-- Witness for the amended C6 on an ordinary title. -/
theorem sanitizeFilename_sanitizes_witness :
    sanitizeFilename (sanitizeFilename "Hello, World!") =
      sanitizeFilename "Hello, World!" :=
  (sanitizeFilename_sanitizes "Hello, World!").2.2.2.2.2 (by decide)
